import Mathlib

/-!
Verification development for the cloud-operation client of the
NativeScript cloud extension.  The definitions below are shallow
embeddings of the TypeScript sources: the abstract `CloudService`
base class (status polling, result download, transformed-result
fetch), the `CloudPublishService` specialization (error
classification for iTunes Connect and Google Play publishes) and the
`CloudCodesignService` specialization (disposition filter, operation
identifier wrapping).  Asynchronous control flow is modelled by
explicit state passing: fetch outcomes are `Except` values indexed by
attempt number, the repeating interval timer is a list of observed
statuses consumed one tick at a time, and thrown JavaScript errors
are the `Except.error` constructor.
-/

namespace NSCloud

/-- Decidable equality for fetch and settlement outcomes. -/
instance {ε α : Type} [DecidableEq ε] [DecidableEq α] : DecidableEq (Except ε α) :=
  fun a b =>
    match a, b with
    | .ok x, .ok y =>
      if h : x = y then .isTrue (congrArg Except.ok h)
      else .isFalse (fun hh => h (Except.ok.inj hh))
    | .error x, .error y =>
      if h : x = y then .isTrue (congrArg Except.error h)
      else .isFalse (fun hh => h (Except.error.inj hh))
    | .ok _, .error _ => .isFalse (fun hh => Except.noConfusion hh)
    | .error _, .ok _ => .isFalse (fun hh => Except.noConfusion hh)

/-- Static field `CloudService.OPERATION_STATUS_CHECK_INTERVAL` (milliseconds). -/
def OPERATION_STATUS_CHECK_INTERVAL : Nat := 1500

/-- Static field `CloudService.OPERATION_STATUS_CHECK_RETRY_COUNT`, passed as the
`retries` option of `promise-retry`. -/
def OPERATION_STATUS_CHECK_RETRY_COUNT : Nat := 8

/-- Static field `CloudService.OPERATION_COMPLETE_STATUS`. -/
def OPERATION_COMPLETE_STATUS : String := "Success"

/-- Static field `CloudService.OPERATION_FAILED_STATUS`. -/
def OPERATION_FAILED_STATUS : String := "Failed"

/-- Static field `CloudService.OPERATION_IN_PROGRESS_STATUS`. -/
def OPERATION_IN_PROGRESS_STATUS : String := "Building"

/-- Static field `CloudService.GET_TRANSFORMED_RESULT_MAX_WAIT` (milliseconds). -/
def GET_TRANSFORMED_RESULT_MAX_WAIT : Nat := 3 * 1000

/-- Static field `CloudService.GET_TRANSFORMED_RESULT_REQUEST_INTERVAL` (milliseconds). -/
def GET_TRANSFORMED_RESULT_REQUEST_INTERVAL : Nat := 500

/-- Static field `CloudService.GET_TRANSFORMED_RESULT_RETRIES_COUNT`
(`Math.floor(MAX_WAIT / REQUEST_INTERVAL)`). -/
def GET_TRANSFORMED_RESULT_RETRIES_COUNT : Nat :=
  GET_TRANSFORMED_RESULT_MAX_WAIT / GET_TRANSFORMED_RESULT_REQUEST_INTERVAL

/-- Model of the `promise-retry` npm package (the `retry` npm package underneath)
as called by `waitForServerOperationToFinish` with options
`{retries, minTimeout}`.  `fn k` is the outcome of the k-th attempt (1-based).
Per the `retry` package, `retries` counts the retries AFTER the first attempt,
so up to `retries + 1` attempts happen in total, and the delay before the
i-th retry (0-based) is `minTimeout * factor ^ i` with the default
`factor = 2` and `maxTimeout = Infinity`.  Returns the final outcome, the
number of attempts performed, and the list of delays waited between attempts. -/
def promiseRetryGo (fn : Nat → Except String α) (minTimeout : Nat) :
    Nat → Nat → Except String α × Nat × List Nat
  | fuel, k =>
    match fn k with
    | .ok a => (.ok a, k, [])
    | .error e =>
      match fuel with
      | 0 => (.error e, k, [])
      | fuel' + 1 =>
        let r := promiseRetryGo fn minTimeout fuel' (k + 1)
        (r.1, r.2.1, minTimeout * 2 ^ (k - 1) :: r.2.2)

/-- Polling phase of `waitForServerOperationToFinish` (source lines 54-77).
The list argument is the sequence of statuses observed by the loop: its head
is the status resolved by the initial `promiseRetry` phase and every further
element is the value fetched by `serverStatus = await this.getObjectFromS3File(...)`
at the end of a tick.  `g` models the specialization's `getServerLogs`
advancing the output cursor.  Returns
the settled outcome (`Except.ok ()` for `resolve()` on `Success`,
`Except.error failedError` for the rejection on `Failed`, `none` when the
sequence is exhausted without a terminal status, i.e. the loop keeps running),
the list of cursor values passed to `getServerLogs` (one entry per invocation),
and the number of in-loop status fetches performed. -/
def pollRun (failedError : String) (g : Nat → Nat) :
    List String → Nat → Option (Except String Unit) × List Nat × Nat
  | [], _ => (none, [], 0)
  | st :: rest, cursor =>
    if st = OPERATION_COMPLETE_STATUS then
      (some (.ok ()), [cursor], 0)
    else if st = OPERATION_FAILED_STATUS then
      (some (.error failedError), [cursor], 0)
    else if st = OPERATION_IN_PROGRESS_STATUS then
      let r := pollRun failedError g rest (g cursor)
      (r.1, cursor :: r.2.1, r.2.2 + 1)
    else
      let r := pollRun failedError g rest cursor
      (r.1, r.2.1, r.2.2 + 1)

/-- Sequence of cursor values produced by starting at `c` and applying the
log-emission cursor update `g` a total of `n` times: the cursors passed to
`getServerLogs` on a run that observes `n` in-progress statuses followed by a
terminal one. -/
def cursorTrace (g : Nat → Nat) : Nat → Nat → List Nat
  | 0, c => [c]
  | n + 1, c => c :: cursorTrace g n (g c)

/-- Observable trace of one call of `waitForServerOperationToFinish`. -/
structure WaitTrace where
  outcome : Option (Except String Unit)
  initialAttempts : Nat
  initialDelays : List Nat
  pollFetches : Nat
deriving Repr, DecidableEq

/-- Model of `waitForServerOperationToFinish` (source lines 38-78).
`initialFetch k` is the outcome of the k-th attempt of the initial status
fetch; a failed attempt is rewritten to `failedToStartError` by the
`reject(new Error(this.failedToStartError))` in the promise executor before
`.catch(retry)` hands it to `promise-retry`.  On success of the initial phase
the polling loop consumes the resolved status followed by `laterStatuses`. -/
def waitForServerOperationToFinish (failedToStartError failedError : String)
    (initialFetch : Nat → Except String String) (g : Nat → Nat)
    (laterStatuses : List String) : WaitTrace :=
  let init := promiseRetryGo
    (fun k => match initialFetch k with
      | .ok s => .ok s
      | .error _ => .error failedToStartError)
    OPERATION_STATUS_CHECK_INTERVAL OPERATION_STATUS_CHECK_RETRY_COUNT 1
  match init.1 with
  | .error e =>
    ⟨some (.error e), init.2.1, init.2.2, 0⟩
  | .ok st =>
    let p := pollRun failedError g (st :: laterStatuses) 0
    ⟨p.1, init.2.1, init.2.2, p.2.2⟩

/-- State of one in-flight polling loop between interval ticks:
the current value of the captured `serverStatus` variable, whether the
`setInterval` timer is still registered, and whether the surrounding promise
has been settled (and how). -/
structure WaitTickState where
  status : String
  timerActive : Bool
  settled : Option (Except String Unit)
deriving Repr, DecidableEq

/-- One firing of the `setInterval` callback of the polling loop (source
lines 57-75).  `log` is the outcome of `await this.getServerLogs(...)` and
`fetch` the outcome of the trailing `await this.getObjectFromS3File(...)`.
A rejected `await` inside the `async` callback abandons the remainder of the
callback body: in that case neither `clearInterval` nor `resolve`/`reject`
runs and the captured state is left unchanged, so the next tick re-processes
the same status. -/
def waitTick (failedError : String) (log : Except String Unit)
    (fetch : Except String String) (s : WaitTickState) : WaitTickState :=
  if s.timerActive then
    if s.status = OPERATION_COMPLETE_STATUS then
      match log with
      | .error _ => s
      | .ok _ => ⟨s.status, false, some (.ok ())⟩
    else if s.status = OPERATION_FAILED_STATUS then
      match log with
      | .error _ => s
      | .ok _ => ⟨s.status, false, some (.error failedError)⟩
    else if s.status = OPERATION_IN_PROGRESS_STATUS then
      match log with
      | .error _ => s
      | .ok _ =>
        match fetch with
        | .error _ => s
        | .ok st => ⟨st, s.timerActive, s.settled⟩
    else
      match fetch with
      | .error _ => s
      | .ok st => ⟨st, s.timerActive, s.settled⟩
  else s

/-- Model of `getTransformedServerResult` (source lines 102-122).  The
`setInterval` callback increments `retriesCount` (initially 1); once it
exceeds `GET_TRANSFORMED_RESULT_RETRIES_COUNT` the promise resolves with
`null` (modelled as `none`); otherwise the fetch of the transformed result is
attempted, a success resolves with the object and a failure is caught, traced
and left for the next tick.  `fetch rc` is the outcome of the attempt made by
the tick with counter value `rc`.  Returns the resolved value together with
the list of counter values at which a fetch attempt happened (the attempt
with counter `rc` runs at `rc * GET_TRANSFORMED_RESULT_REQUEST_INTERVAL`
milliseconds after the call). -/
def transformedGo (fetch : Nat → Except String R) (rc : Nat) :
    Option R × List Nat :=
  if _h : GET_TRANSFORMED_RESULT_RETRIES_COUNT < rc then
    (none, [])
  else
    match fetch rc with
    | .ok r => (some r, [rc])
    | .error _ =>
      let t := transformedGo fetch (rc + 1)
      (t.1, rc :: t.2)
termination_by GET_TRANSFORMED_RESULT_RETRIES_COUNT + 1 - rc
decreasing_by
  have hc : GET_TRANSFORMED_RESULT_RETRIES_COUNT = 6 := rfl
  omega

/-- Server item shape (`IServerItem` in cloud-service.d.ts): an artifact
reference produced by the backend. -/
structure IServerItem where
  disposition : String
  filename : String
  fullPath : String
  platform : String
  extension : String
deriving Repr, DecidableEq

/-- Result object shape used by the codesign disposition filter
(`buildItems` of `IBuildServerResult` / `ICloudOperationResult`). -/
structure ICloudOperationResult where
  buildItems : List IServerItem
deriving Repr, DecidableEq

/-- Record of one artifact download performed by `downloadServerResults`:
the local path handed to `createWriteStream` and the remote `fullPath`
streamed into it via `httpRequest({url, pipeTo})`. -/
structure FileWrite where
  path : String
  sourceUrl : String
deriving Repr, DecidableEq

/-- Model of node's `path.join` on two segments. -/
def pathJoin (a b : String) : String := a ++ "/" ++ b

/-- Download loop of `downloadServerResults` (source lines 86-97): for each
item, the target file name is pushed onto `targetFileNames` and the remote
artifact is streamed to it.  Returns the accumulated `targetFileNames`
together with the file writes performed, in loop order. -/
def downloadLoop (destinationDir : String) :
    List IServerItem → List String × List FileWrite
  | [] => ([], [])
  | o :: rest =>
    let targetFileName := pathJoin destinationDir o.filename
    let r := downloadLoop destinationDir rest
    (targetFileName :: r.1, ⟨targetFileName, o.fullPath⟩ :: r.2)

/-- Model of `downloadServerResults` (source lines 80-100): compute the
destination directory from the specialization's output-directory policy,
filter the server result through the specialization's `getServerResults`,
then run the download loop. -/
def downloadServerResults {ResultT OptsT : Type}
    (getServerResults : ResultT → List IServerItem)
    (getServerOperationOutputDirectory : OptsT → String)
    (serverResult : ResultT) (serverOutputOptions : OptsT) :
    List String × List FileWrite :=
  let destinationDir := getServerOperationOutputDirectory serverOutputOptions
  downloadLoop destinationDir (getServerResults serverResult)

/-- Modelled from the spec: the value of `constants.DISPOSITIONS.CERTIFICATE`
(the repository's constants module is not among the sources; the spec
glossary names the disposition role "certificate"). -/
def DISPOSITION_CERTIFICATE : String := "certificate"

/-- Modelled from the spec: the value of `constants.DISPOSITIONS.PROVISION`
(the repository's constants module is not among the sources; the spec
glossary names the disposition role "provision"). -/
def DISPOSITION_PROVISION : String := "provision"

/-- Disposition predicate of the codesign specialization (the lambda passed
to `_.filter` in `CloudCodesignService.getServerResults`). -/
def isCodesignItem (b : IServerItem) : Bool :=
  b.disposition == DISPOSITION_CERTIFICATE || b.disposition == DISPOSITION_PROVISION

/-- Model of `CloudCodesignService.getServerResults` (cloud-codesign-service.ts
lines 47-57): filter `buildItems` by disposition.  The `if (!result)` guard in
the source is never taken because `_.filter` always returns an array (an
array is truthy in JavaScript even when empty), so it is not modelled. -/
def codesignGetServerResults (codesignResult : ICloudOperationResult) :
    List IServerItem :=
  codesignResult.buildItems.filter isCodesignItem

/-- Model of `os.EOL` on the serverside linux host. -/
def EOL : String := "\n"

/-- Split a character sequence on newline characters, mirroring how the
single-line wildcard `.` of a JavaScript regular expression confines matches
to one line (an empty text yields one empty line, like `"".split`). -/
def splitLines : List Char → List (List Char)
  | [] => [[]]
  | c :: rest =>
    if c = '\n' then [] :: splitLines rest
    else
      match splitLines rest with
      | [] => [[c]]
      | l :: ls => (c :: l) :: ls

/-- First match of a marker-anchored pattern `marker.*` inside one line:
the suffix of the line starting at the first occurrence of the marker (the
greedy `.*` extends the match to the end of the line). -/
def findMarkerSuffix (marker : List Char) : List Char → Option (List Char)
  | [] => none
  | c :: rest =>
    if marker.isPrefixOf (c :: rest) then some (c :: rest)
    else findMarkerSuffix marker rest

/-- Model of `message.match(regex)` for the global regular expressions
`ITMS_ERROR_REGEX` and `GENERAL_ERROR_REGEX`, both of shape `marker.*` with a
literal marker: every line contributes its first marker-anchored match (the
match consumes the rest of the line, so each line matches at most once), and
a `null` result is modelled by the empty list, as `_.uniq(null)` is `[]`. -/
def jsMatchList (marker text : List Char) : List (List Char) :=
  (splitLines text).filterMap (findMarkerSuffix marker)

/-- Model of lodash `_.uniq` (deduplication keeping the FIRST occurrence of
each value), written with an accumulator of already-seen values. -/
def uniqFirstAux {α : Type} [DecidableEq α] (seen : List α) : List α → List α
  | [] => []
  | a :: rest =>
    if a ∈ seen then uniqFirstAux seen rest
    else a :: uniqFirstAux (a :: seen) rest

/-- Deduplication preserving first-occurrence order (lodash `_.uniq`). -/
def uniqFirst {α : Type} [DecidableEq α] (l : List α) : List α :=
  uniqFirstAux [] l

/-- Index of the first occurrence of `x` (length of the list when absent). -/
def firstPos {α : Type} [DecidableEq α] (x : α) : List α → Nat
  | [] => 0
  | a :: rest => if x = a then 0 else firstPos x rest + 1

/-- Model of `CloudPublishService.getFormattedError` (source lines 184-186):
`_.uniq(message.match(regex)).join(EOL)` for a marker-anchored pattern. -/
def getFormattedError (message : String) (marker : String) : String :=
  String.intercalate EOL
    ((uniqFirst (jsMatchList marker.toList message.toList)).map String.mk)

/-- Substring containment, as lodash `_.includes(haystack, needle)`. -/
def containsSub (needle : List Char) : List Char → Bool
  | [] => needle.isEmpty
  | c :: rest => needle.isPrefixOf (c :: rest) || containsSub needle rest

/-- Static field `CloudPublishService.FASTLANE_MULTIPLE_TEAMS_FOUND_ERROR`. -/
def FASTLANE_MULTIPLE_TEAMS_FOUND_ERROR : String := "Multiple iTunes Connect Teams found"

/-- Literal marker of `CloudPublishService.ITMS_ERROR_REGEX`, the pattern
being the marker followed by `.*`. -/
def ITMS_ERROR_MARKER : String := "[Transporter Error Output]:"

/-- Literal marker of `CloudPublishService.GENERAL_ERROR_REGEX`, the pattern
being the marker followed by `.*`. -/
def GENERAL_ERROR_MARKER : String := "[!]"

/-- Capture of `IOS_TEAMS_REGEX` after its opening `"` has been consumed:
the JavaScript engine lets the greedy `(.*)` backtrack to the LAST position
of the line where the remainder `" \(.*\)` still matches, i.e. the last
occurrence of the three characters quote-space-paren that is followed by a
closing paren somewhere later in the line.  Returns the capture group. -/
def capSplit : List Char → Option (List Char)
  | [] => none
  | c :: rest =>
    match capSplit rest with
    | some a => some (c :: a)
    | none =>
      if c = '"' then
        match rest with
        | ' ' :: '(' :: b => if b.contains ')' then some [] else none
        | _ => none
      else none

/-- Attempt to match `IOS_TEAMS_REGEX` (`\d+\) "(.*)" \(.*\)`) at the start
of the given line suffix: a non-empty digit run, the literal `) "`, then the
backtracking capture. -/
def tryTeamsAt (l : List Char) : Option (List Char) :=
  match l.takeWhile Char.isDigit, l.dropWhile Char.isDigit with
  | [], _ => none
  | _ :: _, ')' :: ' ' :: '"' :: r => capSplit r
  | _, _ => none

/-- First match of `IOS_TEAMS_REGEX` in one line: the engine scans left to
right for the first start position where the whole pattern matches.  After a
match the rest of the line holds no closing paren, so a line matches at most
once. -/
def teamsLineMatch : List Char → Option (List Char)
  | [] => none
  | c :: rest =>
    match tryTeamsAt (c :: rest) with
    | some cap => some cap
    | none => teamsLineMatch rest

/-- Model of the capture loop
`while (matches = CloudPublishService.IOS_TEAMS_REGEX.exec(publishResult.stdout)) teamNames.push(matches[1])`
(source lines 83-86): all captures of the global team regex over the
standard output, in order. -/
def extractTeams (stdout : String) : List String :=
  ((splitLines stdout.toList).filterMap teamsLineMatch).map String.mk

/-- Result object shape (`IServerResult` in cloud-service.d.ts). -/
structure IServerResult where
  code : Int
  errors : String
  stdout : String
  stderr : String
deriving Repr, DecidableEq

/-- Shallow model of a thrown JavaScript `Error` object as it travels through
the publish and codesign flows: the message plus the expando properties the
sources attach (`err.stdout`, `err.stderr`, `err.teamNames`,
`err.packagePaths`, `err.buildId`, `err.cloudOperationId`); `none` means the
property was never set. -/
structure CloudError where
  message : String
  stdoutAttached : Option String
  stderrAttached : Option String
  teamNames : Option (List String)
  packagePaths : Option (List String)
  buildId : Option String
  cloudOperationId : Option String
deriving Repr, DecidableEq

/-- Plain error carrying only a message, as produced by a rethrown fetch
failure that nobody decorates. -/
def plainError (message : String) : CloudError :=
  ⟨message, none, none, none, none, none, none⟩

/-- Model of the `getError` classifier built by `publishToItunesConnect`
(source lines 54-93): compose the raw `errors` field with the deduplicated
transporter-error lines of stdout and the deduplicated general `[!]` lines
of stderr; when stderr contains the fastlane multiple-teams marker, attach
the captured team names and the package paths of the publish request. -/
def itunesGetError (packagePaths : List String) (publishResult : IServerResult) :
    CloudError :=
  let itmsMessage := getFormattedError publishResult.stdout ITMS_ERROR_MARKER
  let generalMessage := getFormattedError publishResult.stderr GENERAL_ERROR_MARKER
  let message := publishResult.errors ++ EOL ++ itmsMessage ++ EOL ++ generalMessage
  if containsSub FASTLANE_MULTIPLE_TEAMS_FOUND_ERROR.toList publishResult.stderr.toList then
    ⟨message, none, none, some (extractTeams publishResult.stdout), some packagePaths,
      none, none⟩
  else
    ⟨message, none, none, none, none, none, none⟩

/-- Model of the `getError` classifier built by `publishToGooglePlay`
(source lines 113-116): only the raw `errors` field and the deduplicated
general `[!]` lines of stderr; no team names are ever attached. -/
def googleGetError (publishResult : IServerResult) : CloudError :=
  ⟨publishResult.errors ++ EOL ++ getFormattedError publishResult.stderr GENERAL_ERROR_MARKER,
    none, none, none, none, none, none⟩

/-- Attachment of the raw output to a classifier error, as done by
`err.stderr = publishResult.stderr; err.stdout = publishResult.stdout`
in `publishCore` (source lines 149-150). -/
def attachOutput (publishResult : IServerResult) (e : CloudError) : CloudError :=
  ⟨e.message, some publishResult.stdout, some publishResult.stderr,
    e.teamNames, e.packagePaths, e.buildId, e.cloudOperationId⟩

/-- Model of `CloudPublishService.publishCore` (source lines 130-155) from the
point where the publish request has been submitted: any error of
`waitForServerOperationToFinish` is caught and only traced (lines 138-142);
the result object is then fetched from the result location; if that fetch
throws, the raw error propagates; otherwise the classifier error, decorated
with the result's stdout and stderr, is thrown exactly when the result has a
truthy `code` or a truthy `errors` field (line 147), and the publish resolves
otherwise. -/
def publishCore (getError : IServerResult → CloudError)
    (waitOutcome : Except String Unit)
    (fetchedResult : Except String IServerResult) : Except CloudError Unit :=
  match waitOutcome, fetchedResult with
  | _, .error e => .error (plainError e)
  | _, .ok publishResult =>
    if publishResult.code ≠ 0 ∨ publishResult.errors ≠ "" then
      .error (attachOutput publishResult (getError publishResult))
    else
      .ok ()

/-- Attachment of the generated operation identifier performed by
`generateCodesignFiles` (cloud-codesign-service.ts lines 40-43):
`err.buildId = cloudOperationId; err.cloudOperationId = cloudOperationId`. -/
def attachOperationId (cloudOperationId : String) (e : CloudError) : CloudError :=
  ⟨e.message, e.stdoutAttached, e.stderrAttached, e.teamNames, e.packagePaths,
    some cloudOperationId, some cloudOperationId⟩

/-- Model of `CloudCodesignService.generateCodesignFiles` (cloud-codesign-service.ts
lines 31-45) around its try/catch: the outcome of `executeGeneration` is
passed through on success, and any failure is rethrown with the generated
operation identifier attached. -/
def generateCodesignFiles {α : Type} (cloudOperationId : String)
    (executeGeneration : Except CloudError α) : Except CloudError α :=
  match executeGeneration with
  | .ok r => .ok r
  | .error e => .error (attachOperationId cloudOperationId e)

/-- Sample stdout of a fastlane multiple-teams failure, with the two
numbered team lines from the spec surrounded by non-matching lines. -/
def sampleTeamsStdout : String :=
  "itc_team_id 111\n\n1) \"Team A\" (111)\n2) \"Team B\" (222)\nMultiple teams found on iTunes Connect, done."

/-- Sample stderr containing the fastlane multiple-teams marker. -/
def sampleMultiTeamStderr : String := "boo Multiple iTunes Connect Teams found"

/-- Sample publish result of a multiple-teams failure. -/
def sampleMultiTeamResult : IServerResult :=
  ⟨1, "ambiguous team", sampleTeamsStdout, sampleMultiTeamStderr⟩

/-- Sample stderr in which the same marker line occurs three times,
non-consecutively. -/
def tripleStderr : String :=
  "[!] Something failed\nok line\n[!] Something failed\nanother\n[!] Something failed"

/-- Sample stderr with two distinct marker lines, the first repeated. -/
def mixedStderr : String := "x [!] A\n[!] B\nnothing\n[!] A"

/-- Sample result object whose tool exit code is non-zero. -/
def sampleFailedPublishResult : IServerResult := ⟨1, "", "", ""⟩

/-- Sample result object with a zero code and no errors. -/
def cleanPublishResult : IServerResult := ⟨0, "", "tool output", ""⟩

/-- Initial status fetch that always fails. -/
def allFailInitialFetch : Nat → Except String String :=
  fun _ => Except.error ("network unreachable")

/-- Trace of a wait whose initial status fetch never succeeds. -/
def allFailWaitTrace : WaitTrace :=
  waitForServerOperationToFinish ("Failed to start publishing.") ("Publishing failed.")
    allFailInitialFetch id []

/-- Polling-loop state about to process a terminal `Success` status. -/
def stuckTickState : WaitTickState := ⟨OPERATION_COMPLETE_STATUS, true, none⟩

/-- Transformed-result fetch that never succeeds. -/
def allFailTransformedFetch : Nat → Except String Nat :=
  fun _ => Except.error ("result-transformed not ready")

/-- Transformed-result fetch that succeeds on the third attempt. -/
def thirdTryTransformedFetch : Nat → Except String Nat :=
  fun k => if k = 3 then Except.ok 42 else Except.error ("result-transformed not ready")

/-- Sample codesign result: three artifacts of which two match the
certificate-or-provision disposition filter. -/
def sampleCodesignResult : ICloudOperationResult :=
  ⟨[⟨DISPOSITION_CERTIFICATE, "cert.p12", "url1", "iOS", "p12"⟩,
    ⟨"package", "app.ipa", "url2", "iOS", "ipa"⟩,
    ⟨DISPOSITION_PROVISION, "profile.mobileprovision", "url3", "iOS", "mobileprovision"⟩]⟩

/-- Length of the cursor trace: one entry per log-emission invocation. -/
lemma cursorTrace_length (g : Nat → Nat) : ∀ (n c : Nat), (cursorTrace g n c).length = n + 1 := by
  intro n
  induction n with
  | zero => intro c; rfl
  | succ n ih => intro c; simp [cursorTrace, ih]

/-- Head of the cursor trace is the starting cursor. -/
lemma cursorTrace_head (g : Nat → Nat) : ∀ (n c : Nat), (cursorTrace g n c).head? = some c := by
  intro n
  cases n <;> intro c <;> rfl

/-- When log emission never decreases the cursor, the cursor trace is
non-regressing. -/
lemma cursorTrace_chain (g : Nat → Nat) (hmono : ∀ c, c ≤ g c) :
    ∀ (n c : Nat), List.Chain' (fun a b => a ≤ b) (cursorTrace g n c) := by
  intro n
  induction n with
  | zero => intro c; simp [cursorTrace]
  | succ n ih =>
    intro c
    rw [cursorTrace, List.chain'_cons']
    refine ⟨fun y hy => ?_, ih (g c)⟩
    rw [cursorTrace_head] at hy
    cases hy
    exact hmono c

/-- Evaluation of the polling loop on a run of in-progress statuses followed
by one terminal status. -/
lemma pollRun_replicate_terminal (failedError : String) (g : Nat → Nat) (t : String)
    (ht : t = OPERATION_COMPLETE_STATUS ∨ t = OPERATION_FAILED_STATUS) :
    ∀ (n c : Nat),
      pollRun failedError g (List.replicate n OPERATION_IN_PROGRESS_STATUS ++ [t]) c =
        (some (if t = OPERATION_COMPLETE_STATUS then Except.ok () else Except.error failedError),
          cursorTrace g n c, n) := by
  intro n
  induction n with
  | zero =>
    intro c
    rcases ht with h | h <;> subst h <;>
      simp [pollRun, cursorTrace, OPERATION_COMPLETE_STATUS, OPERATION_FAILED_STATUS]
  | succ n ih =>
    intro c
    have hB1 : ¬ (OPERATION_IN_PROGRESS_STATUS = OPERATION_COMPLETE_STATUS) := by decide
    have hB2 : ¬ (OPERATION_IN_PROGRESS_STATUS = OPERATION_FAILED_STATUS) := by decide
    rw [List.replicate_succ, List.cons_append, pollRun, if_neg hB1, if_neg hB2, if_pos rfl,
      ih (g c), cursorTrace]

/-- C1: for a status sequence of zero or more `Building` (in-progress)
statuses followed by one terminal status observed by the polling phase of
`waitForServerOperationToFinish`, the wait settles according to the terminal
status (`resolve()` with no payload on `Success`, rejection with the fixed
`failedError` message on `Failed`); `getServerLogs` is invoked exactly once
per observed status, terminal one included, and the cursor values passed to
it never regress when log emission never decreases the cursor. -/
theorem C1_polling_log_per_status (n : Nat) (g : Nat → Nat) (failedError : String)
    (t : String) (hmono : ∀ c, c ≤ g c)
    (ht : t = OPERATION_COMPLETE_STATUS ∨ t = OPERATION_FAILED_STATUS) :
    pollRun failedError g (List.replicate n OPERATION_IN_PROGRESS_STATUS ++ [t]) 0 =
      (some (if t = OPERATION_COMPLETE_STATUS then Except.ok () else Except.error failedError),
        cursorTrace g n 0, n)
    ∧ (cursorTrace g n 0).length =
        (List.replicate n OPERATION_IN_PROGRESS_STATUS ++ [t]).length
    ∧ List.Chain' (fun a b => a ≤ b) (cursorTrace g n 0) := by
  refine ⟨pollRun_replicate_terminal failedError g t ht n 0, ?_, cursorTrace_chain g hmono n 0⟩
  simp [cursorTrace_length]

/-- Witness for C1 at a concrete run: two in-progress checks, then `Success`,
with a log emission that advances the cursor by one each time. -/
theorem C1_polling_log_per_status_witness :
    pollRun ("Publishing failed.") Nat.succ
        (List.replicate 2 OPERATION_IN_PROGRESS_STATUS ++ [OPERATION_COMPLETE_STATUS]) 0 =
      (some (Except.ok ()), [0, 1, 2], 2) := by
  have h := C1_polling_log_per_status 2 Nat.succ ("Publishing failed.")
    OPERATION_COMPLETE_STATUS (fun c => Nat.le_succ c) (Or.inl rfl)
  exact h.1.trans (by rfl)

/-- Evaluation of the promise-retry model when every attempt fails with the
same error: the attempts are exhausted (one initial attempt plus `fuel`
retries) and the delays follow the exponential backoff schedule of the
`retry` package. -/
lemma promiseRetryGo_allFail {α : Type} (fn : Nat → Except String α) (c : String)
    (m : Nat) (h : ∀ j, fn j = Except.error c) :
    ∀ (fuel k : Nat), 1 ≤ k →
      promiseRetryGo fn m fuel k =
        (Except.error c, k + fuel,
          (List.range fuel).map (fun i => m * 2 ^ (k - 1 + i))) := by
  intro fuel
  induction fuel with
  | zero =>
    intro k hk
    rw [promiseRetryGo, h k]
    rfl
  | succ f ihf =>
    intro k hk
    rw [promiseRetryGo, h k]
    simp only [ihf (k + 1) (by omega), Prod.mk.injEq, true_and]
    refine ⟨by omega, ?_⟩
    rw [List.range_succ_eq_map, List.map_cons, List.map_map]
    refine congrArg₂ List.cons rfl ?_
    refine List.map_congr_left ?_
    intro i _
    simp only [Function.comp_apply]
    refine congrArg (fun e => m * 2 ^ e) ?_
    omega

/-- C2 counterexample: with every initial status fetch failing, the initial
phase performs 9 fetch attempts, not at most 8 — the `retries: 8` option of
`promise-retry` counts retries after the first attempt. -/
theorem C2_initial_retry_counterexample :
    allFailWaitTrace.initialAttempts = 9
    ∧ ¬ (allFailWaitTrace.initialAttempts ≤ OPERATION_STATUS_CHECK_RETRY_COUNT)
    ∧ allFailWaitTrace.outcome = some (Except.error ("Failed to start publishing.")) := by
  refine ⟨by decide, by decide, by decide⟩

/-- C2 (amended): if every fetch of the status object fails during the
initial phase, `waitForServerOperationToFinish` makes at most 9 attempts
(one initial attempt plus `OPERATION_STATUS_CHECK_RETRY_COUNT = 8` retries),
each pair of consecutive attempts at least
`OPERATION_STATUS_CHECK_INTERVAL = 1500` ms apart, then rejects with the
operation-specific failed-to-start error, and no polling-state status fetch
ever occurs afterwards. -/
theorem C2_initial_retry_amended (failedToStartError failedError : String)
    (initialFetch : Nat → Except String String) (g : Nat → Nat)
    (laterStatuses : List String)
    (h : ∀ k, ∃ e, initialFetch k = Except.error e) :
    (waitForServerOperationToFinish failedToStartError failedError initialFetch g
        laterStatuses).outcome = some (Except.error failedToStartError)
    ∧ (waitForServerOperationToFinish failedToStartError failedError initialFetch g
        laterStatuses).initialAttempts = OPERATION_STATUS_CHECK_RETRY_COUNT + 1
    ∧ OPERATION_STATUS_CHECK_RETRY_COUNT + 1 = 9
    ∧ (waitForServerOperationToFinish failedToStartError failedError initialFetch g
        laterStatuses).initialDelays.length = OPERATION_STATUS_CHECK_RETRY_COUNT
    ∧ (∀ d ∈ (waitForServerOperationToFinish failedToStartError failedError initialFetch g
        laterStatuses).initialDelays, OPERATION_STATUS_CHECK_INTERVAL ≤ d)
    ∧ (waitForServerOperationToFinish failedToStartError failedError initialFetch g
        laterStatuses).pollFetches = 0 := by
  have hfn : ∀ j, (fun k => match initialFetch k with
      | .ok s => Except.ok s
      | .error _ => Except.error failedToStartError) j = Except.error failedToStartError := by
    intro j
    obtain ⟨e, he⟩ := h j
    simp only [he]
  have hgo := promiseRetryGo_allFail _ failedToStartError OPERATION_STATUS_CHECK_INTERVAL hfn
    OPERATION_STATUS_CHECK_RETRY_COUNT 1 (by omega)
  unfold waitForServerOperationToFinish
  rw [hgo]
  simp only
  refine ⟨trivial, by omega, rfl, by simp, ?_, trivial⟩
  intro d hd
  simp only [List.mem_map, List.mem_range] at hd
  obtain ⟨i, _, hi⟩ := hd
  have h2 : 1 ≤ 2 ^ (1 - 1 + i) := Nat.one_le_two_pow
  calc OPERATION_STATUS_CHECK_INTERVAL
      = OPERATION_STATUS_CHECK_INTERVAL * 1 := by rw [Nat.mul_one]
    _ ≤ OPERATION_STATUS_CHECK_INTERVAL * 2 ^ (1 - 1 + i) :=
        Nat.mul_le_mul_left OPERATION_STATUS_CHECK_INTERVAL h2
    _ = d := hi

/-- Witness for the amended C2 at the concrete always-failing fetch. -/
theorem C2_initial_retry_amended_witness :
    allFailWaitTrace.outcome = some (Except.error ("Failed to start publishing."))
    ∧ allFailWaitTrace.initialAttempts = OPERATION_STATUS_CHECK_RETRY_COUNT + 1
    ∧ allFailWaitTrace.pollFetches = 0 := by
  have h := C2_initial_retry_amended ("Failed to start publishing.") ("Publishing failed.")
    allFailInitialFetch id [] (fun k => ⟨"network unreachable", rfl⟩)
  exact ⟨h.1, h.2.1, h.2.2.2.2.2⟩

/-- The three status constants are pairwise distinct strings. -/
lemma status_failed_ne_complete : ¬ (OPERATION_FAILED_STATUS = OPERATION_COMPLETE_STATUS) := by decide

/-- In-progress differs from the complete status. -/
lemma status_progress_ne_complete : ¬ (OPERATION_IN_PROGRESS_STATUS = OPERATION_COMPLETE_STATUS) := by decide

/-- In-progress differs from the failed status. -/
lemma status_progress_ne_failed : ¬ (OPERATION_IN_PROGRESS_STATUS = OPERATION_FAILED_STATUS) := by decide

/-- C3 counterexample: a tick that observes the terminal `Success` status but
whose `getServerLogs` call throws leaves the interval timer registered and
the wait unsettled — `clearInterval` only runs after the `await` of the
log-emission step succeeds, so the claimed cancellation on the log-failure
path does not happen. -/
theorem C3_timer_cancellation_counterexample :
    (waitTick ("Publishing failed.") (Except.error ("log fetch failed"))
        (Except.ok OPERATION_IN_PROGRESS_STATUS) stuckTickState).timerActive = true
    ∧ (waitTick ("Publishing failed.") (Except.error ("log fetch failed"))
        (Except.ok OPERATION_IN_PROGRESS_STATUS) stuckTickState).settled = none := by
  exact ⟨rfl, rfl⟩

/-- C3 (amended): the interval timer is cancelled on the two exit paths of
the polling loop — whenever a tick settles the wait (resolution on `Success`
or rejection on `Failed`) the timer is no longer active; but when the
log-emission step throws, the tick is abandoned: the wait does not exit and
the timer stays active, so the same status is processed again on the next
tick. -/
theorem C3_timer_cancellation_amended :
    (∀ (failedError : String) (log : Except String Unit) (fetch : Except String String)
        (s : WaitTickState), s.settled = none →
        ∀ out, (waitTick failedError log fetch s).settled = some out →
          (waitTick failedError log fetch s).timerActive = false)
    ∧ (∀ (failedError msg : String) (fetch : Except String String) (s : WaitTickState),
        s.timerActive = true → s.settled = none →
          (waitTick failedError (Except.error msg) fetch s).timerActive = true
          ∧ (waitTick failedError (Except.error msg) fetch s).settled = none) := by
  constructor
  · intro failedError log fetch s hnone out hsome
    obtain ⟨st, ta, se⟩ := s
    simp only at hnone
    subst hnone
    cases ta with
    | false => simp [waitTick] at hsome
    | true =>
      by_cases h1 : st = OPERATION_COMPLETE_STATUS
      · cases log with
        | error e => simp [waitTick, h1, status_failed_ne_complete, status_progress_ne_complete, status_progress_ne_failed] at hsome
        | ok u => simp [waitTick, h1, status_failed_ne_complete]
      · by_cases h2 : st = OPERATION_FAILED_STATUS
        · cases log with
          | error e => simp [waitTick, h1, h2, status_failed_ne_complete, status_progress_ne_complete, status_progress_ne_failed] at hsome
          | ok u => simp [waitTick, h1, h2, status_failed_ne_complete]
        · by_cases h3 : st = OPERATION_IN_PROGRESS_STATUS
          · cases log with
            | error e => simp [waitTick, h1, h2, h3, status_failed_ne_complete, status_progress_ne_complete, status_progress_ne_failed] at hsome
            | ok u =>
              cases fetch with
              | error e => simp [waitTick, h1, h2, h3, status_failed_ne_complete, status_progress_ne_complete, status_progress_ne_failed] at hsome
              | ok st2 => simp [waitTick, h1, h2, h3, status_failed_ne_complete, status_progress_ne_complete, status_progress_ne_failed] at hsome
          · cases fetch with
            | error e => simp [waitTick, h1, h2, h3, status_failed_ne_complete, status_progress_ne_complete, status_progress_ne_failed] at hsome
            | ok st2 => simp [waitTick, h1, h2, h3, status_failed_ne_complete, status_progress_ne_complete, status_progress_ne_failed] at hsome
  · intro failedError msg fetch s hta hnone
    obtain ⟨st, ta, se⟩ := s
    simp only at hta hnone
    subst hta
    subst hnone
    by_cases h1 : st = OPERATION_COMPLETE_STATUS
    · simp [waitTick, h1, status_failed_ne_complete]
    · by_cases h2 : st = OPERATION_FAILED_STATUS
      · simp [waitTick, h1, h2, status_failed_ne_complete]
      · by_cases h3 : st = OPERATION_IN_PROGRESS_STATUS
        · simp [waitTick, h1, h2, h3, status_progress_ne_complete, status_progress_ne_failed]
        · cases fetch with
          | error e => simp [waitTick, h1, h2, h3]
          | ok st2 => simp [waitTick, h1, h2, h3]

/-- Witness for the amended C3: a tick that settles on `Success` with a
succeeding log emission has cancelled the timer, while a tick whose log
emission throws keeps the timer active. -/
theorem C3_timer_cancellation_amended_witness :
    (waitTick ("Publishing failed.") (Except.ok ())
        (Except.ok OPERATION_IN_PROGRESS_STATUS) stuckTickState).timerActive = false
    ∧ (waitTick ("Publishing failed.") (Except.error ("boom"))
        (Except.ok OPERATION_IN_PROGRESS_STATUS) stuckTickState).timerActive = true := by
  refine ⟨?_, ?_⟩
  · exact C3_timer_cancellation_amended.1 ("Publishing failed.") (Except.ok ())
      (Except.ok OPERATION_IN_PROGRESS_STATUS) stuckTickState rfl (Except.ok ()) rfl
  · exact (C3_timer_cancellation_amended.2 ("Publishing failed.") ("boom")
      (Except.ok OPERATION_IN_PROGRESS_STATUS) stuckTickState rfl rfl).1

/-- Neither branch of the iTunes Connect classifier sets an operation
identifier on the error it builds. -/
lemma itunesGetError_no_ids (pkgs : List String) (r : IServerResult) :
    (itunesGetError pkgs r).buildId = none
    ∧ (itunesGetError pkgs r).cloudOperationId = none := by
  unfold itunesGetError
  split <;> exact ⟨rfl, rfl⟩

/-- C4 counterexample: a publish whose result object reports a tool failure
surfaces the classifier error with no operation identifier attached — neither
`buildId` nor `cloudOperationId` is ever set on it, even though `publishCore`
generated an operation identifier for the wait. -/
theorem C4_operation_id_counterexample :
    publishCore (itunesGetError []) (Except.ok ()) (Except.ok sampleFailedPublishResult)
      = Except.error (attachOutput sampleFailedPublishResult
          (itunesGetError [] sampleFailedPublishResult))
    ∧ (attachOutput sampleFailedPublishResult
        (itunesGetError [] sampleFailedPublishResult)).buildId = none
    ∧ (attachOutput sampleFailedPublishResult
        (itunesGetError [] sampleFailedPublishResult)).cloudOperationId = none := by
  refine ⟨by rfl, rfl, rfl⟩

/-- C4 (amended): only the codesign entry point wraps failures with the
generated operation identifier (`generateCodesignFiles` attaches it to every
error escaping `executeGeneration`); the publish entry points surface wait or
result-stage failures through `publishCore` with no operation identifier
attached, for the iTunes Connect classifier as well as for the Google Play
one. -/
theorem C4_operation_id_amended :
    (∀ (cloudOperationId : String) (e : CloudError),
        generateCodesignFiles cloudOperationId (Except.error e : Except CloudError Unit)
          = Except.error (attachOperationId cloudOperationId e)
        ∧ (attachOperationId cloudOperationId e).buildId = some cloudOperationId
        ∧ (attachOperationId cloudOperationId e).cloudOperationId = some cloudOperationId)
    ∧ (∀ (pkgs : List String) (w : Except String Unit) (fr : Except String IServerResult)
        (e : CloudError),
        publishCore (itunesGetError pkgs) w fr = Except.error e →
          e.buildId = none ∧ e.cloudOperationId = none)
    ∧ (∀ (w : Except String Unit) (fr : Except String IServerResult) (e : CloudError),
        publishCore googleGetError w fr = Except.error e →
          e.buildId = none ∧ e.cloudOperationId = none) := by
  refine ⟨fun id e => ⟨rfl, rfl, rfl⟩, ?_, ?_⟩
  · intro pkgs w fr e h
    cases fr with
    | error s =>
      simp only [publishCore, Except.error.injEq] at h
      subst h
      exact ⟨rfl, rfl⟩
    | ok r =>
      by_cases hc : r.code ≠ 0 ∨ r.errors ≠ ""
      · simp only [publishCore, if_pos hc, Except.error.injEq] at h
        subst h
        exact itunesGetError_no_ids pkgs r
      · simp [publishCore, if_neg hc] at h
  · intro w fr e h
    cases fr with
    | error s =>
      simp only [publishCore, Except.error.injEq] at h
      subst h
      exact ⟨rfl, rfl⟩
    | ok r =>
      by_cases hc : r.code ≠ 0 ∨ r.errors ≠ ""
      · simp only [publishCore, if_pos hc, Except.error.injEq] at h
        subst h
        exact ⟨rfl, rfl⟩
      · simp [publishCore, if_neg hc] at h

/-- Witness for the amended C4: the codesign wrapper attaches the identifier;
the publish classifier error for a concrete failing result carries none. -/
theorem C4_operation_id_amended_witness :
    generateCodesignFiles ("op-1") (Except.error (plainError ("boom")) : Except CloudError Unit)
      = Except.error (attachOperationId ("op-1") (plainError ("boom")))
    ∧ (attachOperationId ("op-1") (plainError ("boom"))).buildId = some ("op-1")
    ∧ (attachOutput sampleFailedPublishResult
        (itunesGetError [] sampleFailedPublishResult)).buildId = none := by
  refine ⟨(C4_operation_id_amended.1 ("op-1") (plainError ("boom"))).1,
    (C4_operation_id_amended.1 ("op-1") (plainError ("boom"))).2.1,
    (C4_operation_id_amended.2.1 [] (Except.ok ()) (Except.ok sampleFailedPublishResult)
      (attachOutput sampleFailedPublishResult (itunesGetError [] sampleFailedPublishResult))
      (by rfl)).1⟩

/-- C5: `publishCore` throws the classifier-produced error, with the result's
stdout and stderr attached to it, exactly when the fetched result object has
a non-zero `code` or a non-empty `errors` field; with a zero code and empty
errors the publish completes successfully. -/
theorem C5_result_classification (getError : IServerResult → CloudError)
    (waitOutcome : Except String Unit) (r : IServerResult) :
    (publishCore getError waitOutcome (Except.ok r) = Except.ok ()
      ↔ (r.code = 0 ∧ r.errors = ""))
    ∧ ((r.code ≠ 0 ∨ r.errors ≠ "") →
        publishCore getError waitOutcome (Except.ok r)
          = Except.error (attachOutput r (getError r)))
    ∧ (∀ e, publishCore getError waitOutcome (Except.ok r) = Except.error e →
        e.stdoutAttached = some r.stdout ∧ e.stderrAttached = some r.stderr) := by
  by_cases hc : r.code ≠ 0 ∨ r.errors ≠ ""
  · refine ⟨?_, fun _ => by simp [publishCore, if_pos hc], ?_⟩
    · constructor
      · intro h
        exfalso
        simp [publishCore, if_pos hc] at h
      · rintro ⟨h1, h2⟩
        rcases hc with h | h
        · exact absurd h1 h
        · exact absurd h2 h
    · intro e he
      simp only [publishCore, if_pos hc, Except.error.injEq] at he
      subst he
      exact ⟨rfl, rfl⟩
  · push_neg at hc
    refine ⟨?_, ?_, ?_⟩
    · simp [publishCore, hc.1, hc.2]
    · intro h
      rcases h with h | h
      · exact absurd hc.1 h
      · exact absurd hc.2 h
    · intro e he
      exfalso
      simp [publishCore, hc.1, hc.2] at he

/-- Witness for C5 at a concrete result with a non-zero code. -/
theorem C5_result_classification_witness :
    publishCore googleGetError (Except.ok ()) (Except.ok sampleFailedPublishResult)
      = Except.error (attachOutput sampleFailedPublishResult
          (googleGetError sampleFailedPublishResult)) := by
  exact (C5_result_classification googleGetError (Except.ok ()) sampleFailedPublishResult).2.1
    (Or.inl (by decide))

/-- C6: when the stderr of an iTunes Connect publish result contains the
multiple-teams marker, the classifier error carries `teamNames` equal to the
ordered captures of the numbered-team regex over stdout together with the
package paths; on the spec's sample stdout the captures are exactly
`Team A` then `Team B`; the Google Play classifier never attaches team
names. -/
theorem C6_team_extraction :
    (∀ (pkgs : List String) (r : IServerResult),
        containsSub FASTLANE_MULTIPLE_TEAMS_FOUND_ERROR.toList r.stderr.toList = true →
        (itunesGetError pkgs r).teamNames = some (extractTeams r.stdout)
        ∧ (itunesGetError pkgs r).packagePaths = some pkgs)
    ∧ extractTeams sampleTeamsStdout = ["Team A", "Team B"]
    ∧ (∀ r : IServerResult, (googleGetError r).teamNames = none) := by
  refine ⟨?_, by decide, fun r => rfl⟩
  intro pkgs r h
  have hdata : containsSub FASTLANE_MULTIPLE_TEAMS_FOUND_ERROR.data r.stderr.data = true := h
  constructor <;> simp [itunesGetError, hdata]

/-- Witness for C6 at the sample multiple-teams result. -/
theorem C6_team_extraction_witness :
    (itunesGetError (["a.ipa"]) sampleMultiTeamResult).teamNames
      = some (["Team A", "Team B"])
    ∧ (itunesGetError (["a.ipa"]) sampleMultiTeamResult).packagePaths
      = some (["a.ipa"]) := by
  have h := C6_team_extraction.1 (["a.ipa"]) sampleMultiTeamResult (by decide)
  exact ⟨h.1.trans (congrArg some C6_team_extraction.2.1), h.2⟩

/-- Componentwise description of the download loop. -/
lemma downloadLoop_spec (destinationDir : String) :
    ∀ (items : List IServerItem),
      (downloadLoop destinationDir items).1
        = items.map (fun o => pathJoin destinationDir o.filename)
      ∧ (downloadLoop destinationDir items).2.map FileWrite.path
        = (downloadLoop destinationDir items).1
      ∧ (downloadLoop destinationDir items).2.map FileWrite.sourceUrl
        = items.map IServerItem.fullPath := by
  intro items
  induction items with
  | nil => exact ⟨rfl, rfl, rfl⟩
  | cons o rest ih => simp [downloadLoop, ih.1, ih.2.1, ih.2.2]

/-- C7: `downloadServerResults` writes exactly the items selected by the
specialization's disposition filter, each to the policy-computed destination
directory joined with the item's `filename`, and returns the written paths in
the order of the filtered items; instantiated on the codesign filter with
three artifacts of which two match, exactly those two are written. -/
theorem C7_download_results :
    (∀ (ResultT OptsT : Type) (getServerResults : ResultT → List IServerItem)
        (policy : OptsT → String) (serverResult : ResultT) (opts : OptsT),
        (downloadServerResults getServerResults policy serverResult opts).1
          = (getServerResults serverResult).map
              (fun o => pathJoin (policy opts) o.filename)
        ∧ (downloadServerResults getServerResults policy serverResult opts).2.map
              FileWrite.path
          = (downloadServerResults getServerResults policy serverResult opts).1
        ∧ (downloadServerResults getServerResults policy serverResult opts).2.map
              FileWrite.sourceUrl
          = (getServerResults serverResult).map IServerItem.fullPath
        ∧ (downloadServerResults getServerResults policy serverResult opts).1.length
          = (getServerResults serverResult).length)
    ∧ downloadServerResults codesignGetServerResults (fun d : String => d)
        sampleCodesignResult ("out")
      = (["out/cert.p12", "out/profile.mobileprovision"],
          [⟨"out/cert.p12", "url1"⟩, ⟨"out/profile.mobileprovision", "url3"⟩]) := by
  constructor
  · intro ResultT OptsT getServerResults policy serverResult opts
    have h := downloadLoop_spec (policy opts) (getServerResults serverResult)
    have h1 : (downloadServerResults getServerResults policy serverResult opts).1
        = (getServerResults serverResult).map (fun o => pathJoin (policy opts) o.filename) :=
      h.1
    refine ⟨h1, h.2.1, h.2.2, ?_⟩
    rw [h1, List.length_map]
  · rfl

/-- C10: `publishCore` catches and discards any failure of the wait stage —
its outcome does not depend on the wait outcome at all — and with a fetched
result object whose code is zero and whose errors are empty, even a rejected
wait yields a successful publish. -/
theorem C10_wait_error_discarded :
    (∀ (getError : IServerResult → CloudError) (w1 w2 : Except String Unit)
        (fetchedResult : Except String IServerResult),
        publishCore getError w1 fetchedResult = publishCore getError w2 fetchedResult)
    ∧ (∀ (getError : IServerResult → CloudError) (waitErrMsg : String) (r : IServerResult),
        r.code = 0 → r.errors = "" →
        publishCore getError (Except.error waitErrMsg) (Except.ok r) = Except.ok ()) := by
  constructor
  · intro getError w1 w2 fetchedResult
    cases w1 <;> cases w2 <;> cases fetchedResult <;> rfl
  · intro getError waitErrMsg r h1 h2
    simp [publishCore, h1, h2]

/-- Witness for C10: a failed wait followed by a clean result object. -/
theorem C10_wait_error_discarded_witness :
    publishCore googleGetError (Except.error ("Publishing failed."))
        (Except.ok cleanPublishResult) = Except.ok () := by
  exact C10_wait_error_discarded.2 googleGetError ("Publishing failed.")
    cleanPublishResult rfl rfl

/-- Evaluation of the transformed-result loop when every fetch attempt
fails: the attempts run at counter values `rc`, `rc+1`, ... up to the retry
bound and the promise resolves with the absent value. -/
lemma transformedGo_allFail {R : Type} (fetch : Nat → Except String R)
    (h : ∀ k, ∃ e, fetch k = Except.error e) :
    ∀ (d rc : Nat), GET_TRANSFORMED_RESULT_RETRIES_COUNT + 1 - rc = d →
      transformedGo fetch rc = (none, List.range' rc d) := by
  intro d
  induction d with
  | zero =>
    intro rc hrc
    have h6 : GET_TRANSFORMED_RESULT_RETRIES_COUNT = 6 := rfl
    rw [transformedGo, dif_pos (by omega)]
    rfl
  | succ d ih =>
    intro rc hrc
    have h6 : GET_TRANSFORMED_RESULT_RETRIES_COUNT = 6 := rfl
    obtain ⟨e, he⟩ := h rc
    rw [transformedGo, dif_neg (by omega), he]
    simp only [ih (rc + 1) (by omega)]
    rw [List.range'_succ]

/-- Evaluation of the transformed-result loop up to the first successful
fetch attempt: the promise resolves with the first fetched object. -/
lemma transformedGo_firstSuccess {R : Type} (fetch : Nat → Except String R)
    (r : R) (k : Nat) (hk : k ≤ GET_TRANSFORMED_RESULT_RETRIES_COUNT)
    (hok : fetch k = Except.ok r) :
    ∀ (d rc : Nat), k - rc = d → 1 ≤ rc → rc ≤ k →
      (∀ j, rc ≤ j → j < k → ∃ e, fetch j = Except.error e) →
      (transformedGo fetch rc).1 = some r := by
  intro d
  induction d with
  | zero =>
    intro rc hd h1 h2 hfail
    have h6 : GET_TRANSFORMED_RESULT_RETRIES_COUNT = 6 := rfl
    have hrck : rc = k := by omega
    subst hrck
    rw [transformedGo, dif_neg (by omega), hok]
  | succ d ih =>
    intro rc hd h1 h2 hfail
    have h6 : GET_TRANSFORMED_RESULT_RETRIES_COUNT = 6 := rfl
    obtain ⟨e, he⟩ := hfail rc (Nat.le_refl rc) (by omega)
    rw [transformedGo, dif_neg (by omega), he]
    simp only
    exact ih (rc + 1) (by omega) (by omega) (by omega)
      (fun j hj1 hj2 => hfail j (by omega) hj2)

/-- C8: `getTransformedServerResult` never rejects — for any sequence of
fetch outcomes it resolves: if every attempt fails, it makes exactly the 6
attempts of the retry budget, at counter values 1..6, hence 500 ms apart with
the last one at the 3000 ms bound, and then resolves with the absent value;
if some attempt succeeds first, it resolves with the first successfully
fetched object. -/
theorem C8_transformed_soft_timeout :
    (∀ (R : Type) (fetch : Nat → Except String R),
        (∀ k, ∃ e, fetch k = Except.error e) →
        transformedGo fetch 1 = (none, [1, 2, 3, 4, 5, 6])
        ∧ (transformedGo fetch 1).2.length = GET_TRANSFORMED_RESULT_RETRIES_COUNT
        ∧ (transformedGo fetch 1).2.map
            (fun rc => rc * GET_TRANSFORMED_RESULT_REQUEST_INTERVAL)
          = [500, 1000, 1500, 2000, 2500, 3000]
        ∧ (∀ t ∈ (transformedGo fetch 1).2.map
              (fun rc => rc * GET_TRANSFORMED_RESULT_REQUEST_INTERVAL),
            t ≤ GET_TRANSFORMED_RESULT_MAX_WAIT))
    ∧ (∀ (R : Type) (fetch : Nat → Except String R) (r : R) (k : Nat),
        1 ≤ k → k ≤ GET_TRANSFORMED_RESULT_RETRIES_COUNT →
        fetch k = Except.ok r →
        (∀ j, 1 ≤ j → j < k → ∃ e, fetch j = Except.error e) →
        (transformedGo fetch 1).1 = some r) := by
  constructor
  · intro R fetch h
    have hall := transformedGo_allFail fetch h 6 1 (by rfl)
    have heq : transformedGo fetch 1 = (none, [1, 2, 3, 4, 5, 6]) := by
      rw [hall]
      rfl
    have h2 : (transformedGo fetch 1).2 = [1, 2, 3, 4, 5, 6] := by rw [heq]
    refine ⟨heq, ?_, ?_, ?_⟩
    · rw [h2]
      rfl
    · rw [h2]
      rfl
    · rw [h2]
      decide
  · intro R fetch r k hk1 hk6 hok hfail
    exact transformedGo_firstSuccess fetch r k hk6 hok (k - 1) 1 rfl (Nat.le_refl 1) hk1
      hfail

/-- Witness for C8: the always-failing fetch resolves with the absent value
after attempts 1..6, and a fetch succeeding on its third attempt resolves
with that object. -/
theorem C8_transformed_soft_timeout_witness :
    transformedGo allFailTransformedFetch 1 = (none, [1, 2, 3, 4, 5, 6])
    ∧ (transformedGo thirdTryTransformedFetch 1).1 = some 42 := by
  constructor
  · exact (C8_transformed_soft_timeout.1 Nat allFailTransformedFetch
      (fun k => ⟨"result-transformed not ready", rfl⟩)).1
  · refine C8_transformed_soft_timeout.2 Nat thirdTryTransformedFetch 42 3
      (by omega) (by decide) (by rfl) ?_
    intro j h1 h2
    refine ⟨"result-transformed not ready", ?_⟩
    have hj : ¬ (j = 3) := by omega
    simp [thirdTryTransformedFetch, hj]

/-- Membership in the deduplicated list: present iff in the input and not
among the already-seen values. -/
lemma uniqFirstAux_mem {α : Type} [DecidableEq α] (x : α) :
    ∀ (l seen : List α), x ∈ uniqFirstAux seen l ↔ (x ∈ l ∧ x ∉ seen) := by
  intro l
  induction l with
  | nil => intro seen; simp [uniqFirstAux]
  | cons a l ih =>
    intro seen
    by_cases ha : a ∈ seen
    · simp only [uniqFirstAux, if_pos ha, List.mem_cons, ih]
      constructor
      · rintro ⟨h1, h2⟩
        exact ⟨Or.inr h1, h2⟩
      · rintro ⟨h1 | h1, h2⟩
        · exact absurd (h1.symm ▸ ha) h2
        · exact ⟨h1, h2⟩
    · simp only [uniqFirstAux, if_neg ha, List.mem_cons, ih]
      constructor
      · rintro (h | ⟨h1, h2⟩)
        · subst h
          exact ⟨Or.inl rfl, ha⟩
        · exact ⟨Or.inr h1, fun hs => h2 (Or.inr hs)⟩
      · rintro ⟨h1 | h1, h2⟩
        · subst h1
          exact Or.inl rfl
        · by_cases hxa : x = a
          · exact Or.inl hxa
          · refine Or.inr ⟨h1, ?_⟩
            rintro (hs | hs)
            · exact hxa hs
            · exact h2 hs

/-- The deduplicated list has no duplicates. -/
lemma uniqFirstAux_nodup {α : Type} [DecidableEq α] :
    ∀ (l seen : List α), (uniqFirstAux seen l).Nodup := by
  intro l
  induction l with
  | nil => intro seen; simp [uniqFirstAux]
  | cons a l ih =>
    intro seen
    by_cases ha : a ∈ seen
    · simpa [uniqFirstAux, if_pos ha] using ih seen
    · simp only [uniqFirstAux, if_neg ha, List.nodup_cons]
      refine ⟨?_, ih (a :: seen)⟩
      rw [uniqFirstAux_mem]
      rintro ⟨-, h2⟩
      exact h2 (List.mem_cons_self a seen)

/-- The deduplicated list is a sublist of the input, so the relative order of
the kept occurrences is the input order. -/
lemma uniqFirstAux_sublist {α : Type} [DecidableEq α] :
    ∀ (l seen : List α), List.Sublist (uniqFirstAux seen l) l := by
  intro l
  induction l with
  | nil => intro seen; simp [uniqFirstAux]
  | cons a l ih =>
    intro seen
    by_cases ha : a ∈ seen
    · simp only [uniqFirstAux, if_pos ha]
      exact (ih seen).cons a
    · simp only [uniqFirstAux, if_neg ha]
      exact (ih (a :: seen)).cons₂ a

/-- Deduplication keeps each value at its first occurrence: the relative
order of two distinct kept values in the deduplicated list agrees with the
relative order of their first occurrences in the input. -/
lemma uniqFirstAux_firstPos_iff {α : Type} [DecidableEq α] (x y : α) (hxy : x ≠ y) :
    ∀ (l seen : List α), x ∈ l → x ∉ seen → y ∈ l → y ∉ seen →
      (firstPos x (uniqFirstAux seen l) < firstPos y (uniqFirstAux seen l)
        ↔ firstPos x l < firstPos y l) := by
  intro l
  induction l with
  | nil => intro seen hx; exact absurd hx (List.not_mem_nil x)
  | cons a l ih =>
    intro seen hx hxs hy hys
    by_cases ha : a ∈ seen
    · have hxa : ¬ (x = a) := fun h => hxs (h ▸ ha)
      have hya : ¬ (y = a) := fun h => hys (h ▸ ha)
      have hx' : x ∈ l := by
        rcases List.mem_cons.mp hx with h | h
        · exact absurd h hxa
        · exact h
      have hy' : y ∈ l := by
        rcases List.mem_cons.mp hy with h | h
        · exact absurd h hya
        · exact h
      simp only [uniqFirstAux, if_pos ha, firstPos, if_neg hxa, if_neg hya]
      rw [ih seen hx' hxs hy' hys]
      omega
    · by_cases hxa : x = a
      · subst hxa
        have hyx : ¬ (y = x) := fun h => hxy h.symm
        have L1 : firstPos x (uniqFirstAux seen (x :: l)) = 0 := by
          simp [uniqFirstAux, if_neg ha, firstPos]
        have L2 : firstPos y (uniqFirstAux seen (x :: l))
            = firstPos y (uniqFirstAux (x :: seen) l) + 1 := by
          simp [uniqFirstAux, if_neg ha, firstPos, hyx]
        have R1 : firstPos x (x :: l) = 0 := by simp [firstPos]
        have R2 : firstPos y (x :: l) = firstPos y l + 1 := by simp [firstPos, hyx]
        rw [L1, L2, R1, R2]
        omega
      · by_cases hya : y = a
        · subst hya
          have L1 : firstPos y (uniqFirstAux seen (y :: l)) = 0 := by
            simp [uniqFirstAux, if_neg ha, firstPos]
          have L2 : firstPos x (uniqFirstAux seen (y :: l))
              = firstPos x (uniqFirstAux (y :: seen) l) + 1 := by
            simp [uniqFirstAux, if_neg ha, firstPos, hxa]
          have R1 : firstPos y (y :: l) = 0 := by simp [firstPos]
          have R2 : firstPos x (y :: l) = firstPos x l + 1 := by simp [firstPos, hxa]
          rw [L1, L2, R1, R2]
          omega
        · have hx' : x ∈ l := by
            rcases List.mem_cons.mp hx with h | h
            · exact absurd h hxa
            · exact h
          have hy' : y ∈ l := by
            rcases List.mem_cons.mp hy with h | h
            · exact absurd h hya
            · exact h
          have hxs' : x ∉ a :: seen := by
            intro h
            rcases List.mem_cons.mp h with h | h
            · exact hxa h
            · exact hxs h
          have hys' : y ∉ a :: seen := by
            intro h
            rcases List.mem_cons.mp h with h | h
            · exact hya h
            · exact hys h
          simp only [uniqFirstAux, if_neg ha, firstPos, if_neg hxa, if_neg hya]
          rw [Nat.add_lt_add_iff_right, Nat.add_lt_add_iff_right]
          exact ih (a :: seen) hx' hxs' hy' hys'

/-- C9: `getFormattedError` deduplicates the marker-anchored matches keeping
first occurrences in their original order (the result has no duplicates, is a
sublist of the match list, keeps exactly the matched values, and orders two
distinct kept values by their first occurrences) and joins them with a
newline; a marker line occurring three times non-consecutively appears
exactly once in the output. -/
theorem C9_dedup_lines :
    (∀ (marker text : List Char),
        (uniqFirst (jsMatchList marker text)).Nodup
        ∧ List.Sublist (uniqFirst (jsMatchList marker text)) (jsMatchList marker text)
        ∧ (∀ m, m ∈ uniqFirst (jsMatchList marker text) ↔ m ∈ jsMatchList marker text)
        ∧ (∀ x y, x ≠ y → x ∈ jsMatchList marker text → y ∈ jsMatchList marker text →
            (firstPos x (uniqFirst (jsMatchList marker text))
                < firstPos y (uniqFirst (jsMatchList marker text))
              ↔ firstPos x (jsMatchList marker text)
                < firstPos y (jsMatchList marker text))))
    ∧ getFormattedError tripleStderr GENERAL_ERROR_MARKER = "[!] Something failed"
    ∧ getFormattedError mixedStderr GENERAL_ERROR_MARKER = "[!] A" ++ EOL ++ "[!] B" := by
  refine ⟨?_, by decide, by decide⟩
  intro marker text
  refine ⟨uniqFirstAux_nodup (jsMatchList marker text) [],
    uniqFirstAux_sublist (jsMatchList marker text) [], ?_, ?_⟩
  · intro m
    rw [uniqFirst, uniqFirstAux_mem]
    simp
  · intro x y hxy hx hy
    exact uniqFirstAux_firstPos_iff x y hxy (jsMatchList marker text) [] hx
      (List.not_mem_nil x) hy (List.not_mem_nil y)

/-- Witness for C9: on the sample stderr with a repeated marker line, the
order of the two distinct kept lines matches their first occurrences. -/
theorem C9_dedup_lines_witness :
    firstPos (("[!] A").toList)
        (uniqFirst (jsMatchList (("[!]").toList) mixedStderr.toList))
      < firstPos (("[!] B").toList)
        (uniqFirst (jsMatchList (("[!]").toList) mixedStderr.toList))
    ↔ firstPos (("[!] A").toList) (jsMatchList (("[!]").toList) mixedStderr.toList)
      < firstPos (("[!] B").toList) (jsMatchList (("[!]").toList) mixedStderr.toList) := by
  exact (C9_dedup_lines.1 (("[!]").toList) mixedStderr.toList).2.2.2
    (("[!] A").toList) (("[!] B").toList) (by decide) (by decide) (by decide)

end NSCloud
